import Mathlib

/-! restapi: an HTTP facade over a container runtime

A shallow embedding of `src/restapi/main.go`.

* A Go `string` holding text is embedded as a Lean `String`.  Go's `len(s)`
  and slice `s[lo:hi]` work on the bytes of the string, its UTF-8 encoding
  (`goBytes`); a slice may cut a character, so its result is kept as bytes.
* A Go `(T, error)` result of the runtime collaborator is embedded as
  `Except Err T`; the `error` value is represented by its `Error()` text.
* A Go pointer that may be `nil` inside this program (`*image.Image`,
  `*libpod.Container` in the slices handed to the projections) is an `Option`.
* A handler is a function from the runtime, the runtime state and the request
  to the ordered list of effects it performs (header sets, JSON values encoded
  on the response writer, mutating runtime calls), the final runtime state, and
  whether the handler returned or panicked.
-/

namespace Restapi

/-- The text of a Go `error` value (what `%v` prints for it). -/
abbrev Err := String

/-- A `time.Time` instant. -/
abbrev Time := Int

/-- Go run-time panics reachable from the handlers. -/
inductive GoPanic where
  /-- A method of the runtime library reads a field through a nil receiver. -/
  | nilDereference
  /-- The message `slice bounds out of range [:hi] with length len`. -/
  | sliceBoundsOutOfRange (hi len : Nat)
  deriving DecidableEq

/-- The bytes of the Go string holding the text `s`: its UTF-8 encoding. -/
def goBytes (s : String) : List UInt8 :=
  s.data.flatMap String.utf8EncodeChar

/-- The Go expression `len(s)`: the number of bytes of `s`. -/
def goLen (s : String) : Nat :=
  (goBytes s).length

/-- The Go slice expression `s[lo:hi]` on a string: the bytes of `s` from
index `lo` up to `hi`; panics unless `lo ≤ hi ≤ len(s)`. -/
def goSlice (s : String) (lo hi : Nat) : Except GoPanic (List UInt8) :=
  if hi ≤ goLen s then
    if lo ≤ hi then .ok (((goBytes s).drop lo).take (hi - lo))
    else .error (.sliceBoundsOutOfRange hi (goLen s))
  else .error (.sliceBoundsOutOfRange hi (goLen s))

/-- What `fmt.Sprintf("%v", err)` prints for an `error` interface value. -/
def fmtErr : Option Err → String
  | none => "<nil>"
  | some e => e

deriving instance DecidableEq for Except

/-! ## Runtime entities (the accessors the projections call) -/

/-- An `image.Image` as seen through its accessors. -/
structure Image where
  ID : String
  Names : List String
  Digest : String
  Created : Time
  /-- Result of `img.Size(ctx)`, a `(*uint64, error)`. -/
  Size : Except Err Nat
  deriving DecidableEq

/-- A `libpod.Container` as seen through its accessors.  The accessors whose
`error` result the projection discards are represented by their value part. -/
structure Container where
  ID : String
  Name : String
  /-- Second component of `ctr.Image()`. -/
  ImageName : String
  Command : List String
  /-- First two components of `ctr.ExitCode()`. -/
  ExitCode : Int
  Exited : Bool
  CreatedTime : Time
  StartedTime : Time
  FinishedTime : Time
  /-- The text `status.String()` of `ctr.State()`. -/
  State : String
  Labels : List (String × String)
  IsInfra : Bool
  deriving DecidableEq

/-! ## View structures -/

structure imagesJSONParams where
  ID : String
  /-- The bytes of the slice `ID[0:12]`. -/
  ShortID : List UInt8
  Name : List String
  Digest : String
  Created : Time
  /-- A `*uint64`: `none` is the nil pointer, encoded as JSON `null`. -/
  Size : Option Nat
  deriving DecidableEq

/-- An `ocicni.PortMapping`. -/
structure PortMapping where
  HostPort : Int
  ContainerPort : Int
  Protocol : String
  HostIP : String
  deriving DecidableEq

/-- A `shared.ContainerSize`. -/
structure ContainerSize where
  RootFsSize : Int
  RwSize : Int
  deriving DecidableEq

/-- A `shared.Namespace`. -/
structure Namespace where
  PID : String
  Cgroup : String
  IPC : String
  MNT : String
  NET : String
  PIDNS : String
  User : String
  UTS : String
  deriving DecidableEq

structure containersJSONParams where
  ID : String
  /-- The bytes of the slice `ID[0:12]`. -/
  ShortID : List UInt8
  Image : String
  ImageID : String
  Command : List String
  ExitCode : Int
  Exited : Bool
  CreatedAt : Time
  StartedAt : Time
  ExitedAt : Time
  Status : String
  PID : Int
  Ports : List PortMapping
  Size : Option ContainerSize
  Names : String
  Labels : List (String × String)
  Mounts : List String
  ContainerRunning : Bool
  Namespaces : Option Namespace
  Pod : String
  IsInfra : Bool
  deriving DecidableEq

/-- The values handed to `json.NewEncoder(w).Encode`.  A list is the Go slice
(the nil slice, encoded as `null`, is the empty list). -/
inductive JSONValue where
  | str (s : String)
  | images (views : List imagesJSONParams)
  | containers (views : List containersJSONParams)
  deriving DecidableEq

/-- The arguments of `image.Runtime.New` (the pull operation). -/
structure PullArgs where
  name : String
  signaturePolicyPath : String
  authfile : String
  /-- The `io.Writer` argument is present. -/
  writer : Bool
  /-- `DockerRegistryOptions.DockerRegistryCreds` is non-nil. -/
  registryCreds : Bool
  DockerCertPath : String
  forcePull : Bool
  deriving DecidableEq

/-- The effects a handler performs, in program order. -/
inductive Event where
  /-- The call `w.Header().Set(key, value)`. -/
  | setHeader (key value : String)
  /-- The call `json.NewEncoder(w).Encode(v)`. -/
  | encode (v : JSONValue)
  /-- The call `runtime.RemoveContainer(ctx, c, force)`. -/
  | removeContainer (c : Container) (force : Bool)
  /-- The call `runtime.RemoveImage(ctx, img, force)`. -/
  | removeImage (img : Image) (force : Bool)
  /-- The call `runtime.ImageRuntime().New(ctx, ...)`. -/
  | pull (args : PullArgs)
  deriving DecidableEq

/-- How a handler invocation ends. -/
inductive Outcome where
  | returned
  | panicked (p : GoPanic)
  deriving DecidableEq

/-- The observable result of one handler invocation. -/
structure Result (σ : Type) where
  events : List Event
  state : σ
  outcome : Outcome
  deriving DecidableEq

/-- The JSON values written to the response body, in order. -/
def Result.body {σ : Type} (r : Result σ) : List JSONValue :=
  r.events.filterMap fun e =>
    match e with
    | .encode v => some v
    | _ => none

/-- The runtime collaborator over an abstract state `σ`.  Lookups and
enumerations are queries of the state; removals and pulls return a new state. -/
structure Runtime (σ : Type) where
  GetContainers : σ → Except Err (List Container)
  LookupContainer : σ → String → Except Err Container
  RemoveContainer : σ → Container → Bool → Option Err × σ
  GetImages : σ → Except Err (List Image)
  NewFromLocal : σ → String → Except Err Image
  /-- Returns the removed image id together with the error. -/
  RemoveImage : σ → Image → Bool → (String × Option Err) × σ
  /-- The pull operation `image.Runtime.New`. -/
  New : σ → PullArgs → Except Err Image × σ

/-- An HTTP request: the URL query pairs and the route variables. -/
structure Request where
  query : List (String × String)
  vars : List (String × String)
  deriving DecidableEq

/-- The call `r.URL.Query().Get(key)`: the first value of `key`, or `""`. -/
def Request.queryGet (r : Request) (key : String) : String :=
  (r.query.lookup key).getD ""

/-- The expression `mux.Vars(r)[key]`: the value of `key`, or `""`. -/
def Request.var (r : Request) (key : String) : String :=
  (r.vars.lookup key).getD ""

/-! ## Projections -/

/-- Dereference of a pointer by a runtime-library accessor. -/
def deref {α : Type} : Option α → Except GoPanic α
  | none => .error .nilDereference
  | some a => .ok a

/-- The body of the loop of `getImagesJSONOutput` for one image. -/
def imageParams (img : Option Image) : Except GoPanic imagesJSONParams := do
  let img ← deref img
  let size : Option Nat :=
    match img.Size with
    | .error _ => none
    | .ok n => some n
  let shortID ← goSlice img.ID 0 12
  pure {
    ID := img.ID
    ShortID := shortID
    Name := img.Names
    Digest := img.Digest
    Created := img.Created
    Size := size }

/-- The loop of `getImagesJSONOutput`: `out` is `imagesOutput` so far. -/
def getImagesJSONOutputLoop :
    List (Option Image) → List imagesJSONParams → Except GoPanic (List imagesJSONParams)
  | [], out => .ok out
  | img :: rest, out =>
    match imageParams img with
    | .error p => .error p
    | .ok params => getImagesJSONOutputLoop rest (out ++ [params])

/-- The function `getImagesJSONOutput` (the `ctx` and `runtime` arguments are
unused by its body). -/
def getImagesJSONOutput (images : List (Option Image)) :
    Except GoPanic (List imagesJSONParams) :=
  getImagesJSONOutputLoop images []

/-- The body of the loop of `getContainersJSONOutput` for one container. -/
def containerParams {σ : Type} (runtime : Runtime σ) (s : σ) (ctr : Option Container) :
    Except GoPanic containersJSONParams := do
  let ctr ← deref ctr
  let imageName := ctr.ImageName
  let imageID : String :=
    match runtime.NewFromLocal s imageName with
    | .ok image => image.ID
    | .error _ => ""
  let shortID ← goSlice ctr.ID 0 12
  pure {
    ID := ctr.ID
    ShortID := shortID
    Names := ctr.Name
    Image := imageName
    ImageID := imageID
    Command := ctr.Command
    ExitCode := ctr.ExitCode
    Exited := ctr.Exited
    CreatedAt := ctr.CreatedTime
    StartedAt := ctr.StartedTime
    ExitedAt := ctr.FinishedTime
    Status := ctr.State
    Labels := ctr.Labels
    IsInfra := ctr.IsInfra
    PID := 0
    Ports := []
    Size := none
    Mounts := []
    ContainerRunning := false
    Namespaces := none
    Pod := "" }

/-- The loop of `getContainersJSONOutput`: `out` is `containersOutput` so far. -/
def getContainersJSONOutputLoop {σ : Type} (runtime : Runtime σ) (s : σ) :
    List (Option Container) → List containersJSONParams →
      Except GoPanic (List containersJSONParams)
  | [], out => .ok out
  | ctr :: rest, out =>
    match containerParams runtime s ctr with
    | .error p => .error p
    | .ok params => getContainersJSONOutputLoop runtime s rest (out ++ [params])

/-- The function `getContainersJSONOutput`. -/
def getContainersJSONOutput {σ : Type} (runtime : Runtime σ) (s : σ)
    (containers : List (Option Container)) : Except GoPanic (List containersJSONParams) :=
  getContainersJSONOutputLoop runtime s containers []

/-! ## Handlers -/

/-- The header line every handler but `PullImage` starts with. -/
def contentTypeJSON : Event := .setHeader "Content-Type" "application/json"

def DeleteImage {σ : Type} (runtime : Runtime σ) (s : σ) (r : Request) : Result σ :=
  let input := r.queryGet "id"
  match runtime.NewFromLocal s input with
  | .error err =>
    let result := "unable to find image, " ++ fmtErr (some err)
    { events := [contentTypeJSON, .encode (.str result)], state := s, outcome := .returned }
  | .ok image =>
    match runtime.RemoveImage s image false with
    | ((_, some deleteErr), s1) =>
      let errString := "unable to delete image " ++ image.ID ++ ", error: " ++ fmtErr (some deleteErr)
      { events := [contentTypeJSON, .removeImage image false, .encode (.str errString)],
        state := s1, outcome := .returned }
    | ((imageID, none), s1) =>
      let msg := "Deleted Image ID: " ++ imageID
      { events := [contentTypeJSON, .removeImage image false, .encode (.str msg)],
        state := s1, outcome := .returned }

def GetImage {σ : Type} (runtime : Runtime σ) (s : σ) (r : Request) : Result σ :=
  let images : List (Option Image) := []
  let input := r.queryGet "id"
  match runtime.NewFromLocal s input with
  | .error err =>
    let result := "unable to get image, " ++ fmtErr (some err)
    { events := [contentTypeJSON, .encode (.str result)], state := s, outcome := .returned }
  | .ok image =>
    let images := images ++ [some image]
    match getImagesJSONOutput images with
    | .error p => { events := [contentTypeJSON], state := s, outcome := .panicked p }
    | .ok imagesOutput =>
      { events := [contentTypeJSON, .encode (.images imagesOutput)], state := s,
        outcome := .returned }

def GetImages {σ : Type} (runtime : Runtime σ) (s : σ) (_r : Request) : Result σ :=
  match runtime.GetImages s with
  | .error err =>
    let result := "unable to get images, " ++ fmtErr (some err)
    { events := [contentTypeJSON, .encode (.str result)], state := s, outcome := .returned }
  | .ok images =>
    if images.length = 0 then
      let result := "no images found, " ++ fmtErr none
      { events := [contentTypeJSON, .encode (.str result)], state := s, outcome := .returned }
    else
      match getImagesJSONOutput (images.map some) with
      | .error p => { events := [contentTypeJSON], state := s, outcome := .panicked p }
      | .ok imagesOutput =>
        { events := [contentTypeJSON, .encode (.images imagesOutput)], state := s,
          outcome := .returned }

def DeleteContainer {σ : Type} (runtime : Runtime σ) (s : σ) (r : Request) : Result σ :=
  let input := r.queryGet "id"
  match runtime.LookupContainer s input with
  | .error err =>
    let result := "unable to get container, " ++ fmtErr (some err)
    { events := [contentTypeJSON, .encode (.str result)], state := s, outcome := .returned }
  | .ok container =>
    match runtime.RemoveContainer s container false with
    | (some deleteErr, s1) =>
      let errString :=
        "unable to delete container " ++ container.ID ++ ", error: " ++ fmtErr (some deleteErr)
      { events := [contentTypeJSON, .removeContainer container false, .encode (.str errString)],
        state := s1, outcome := .returned }
    | (none, s1) =>
      let msg := "Deleted Container ID: " ++ container.ID
      { events := [contentTypeJSON, .removeContainer container false, .encode (.str msg)],
        state := s1, outcome := .returned }

def GetContainer {σ : Type} (runtime : Runtime σ) (s : σ) (r : Request) : Result σ :=
  let containers : List (Option Container) := []
  let input := r.queryGet "id"
  match runtime.LookupContainer s input with
  | .error err =>
    let result := "unable to get container, " ++ fmtErr (some err)
    { events := [contentTypeJSON, .encode (.str result)], state := s, outcome := .returned }
  | .ok container =>
    let containers := containers ++ [some container]
    match getContainersJSONOutput runtime s containers with
    | .error p => { events := [contentTypeJSON], state := s, outcome := .panicked p }
    | .ok containersOutput =>
      { events := [contentTypeJSON, .encode (.containers containersOutput)], state := s,
        outcome := .returned }

def GetContainers {σ : Type} (runtime : Runtime σ) (s : σ) (_r : Request) : Result σ :=
  match runtime.GetContainers s with
  | .error err =>
    let result := "unable to get containers, " ++ fmtErr (some err)
    { events := [contentTypeJSON, .encode (.str result)], state := s, outcome := .returned }
  | .ok containers =>
    if containers.length = 0 then
      let result := "no containers found, " ++ fmtErr none
      { events := [contentTypeJSON, .encode (.str result)], state := s, outcome := .returned }
    else
      match getContainersJSONOutput runtime s (containers.map some) with
      | .error p => { events := [contentTypeJSON], state := s, outcome := .panicked p }
      | .ok containersOutput =>
        { events := [contentTypeJSON, .encode (.containers containersOutput)], state := s,
          outcome := .returned }

/-- The arguments `PullImage` passes to the pull operation for reference `name`:
nil credentials, empty certificate path, empty policy path and authfile, nil
writer, forced pull. -/
def pullArgs (name : String) : PullArgs :=
  { name := name, signaturePolicyPath := "", authfile := "", writer := false,
    registryCreds := false, DockerCertPath := "", forcePull := true }

/-- The handler `PullImage`.  After a failed pull the error string is encoded
and control continues to the statements below the `if`; `newImage` is then the
nil pointer the pull returned next to its error. -/
def PullImage {σ : Type} (runtime : Runtime σ) (s : σ) (r : Request) : Result σ :=
  let images : List (Option Image) := []
  let args := pullArgs (r.var "name")
  let (res, s1) := runtime.New s args
  let newImage : Option Image :=
    match res with
    | .ok img => some img
    | .error _ => none
  let written : List Event :=
    match res with
    | .ok _ => []
    | .error err => [.encode (.str ("image not found, " ++ fmtErr (some err)))]
  let images := images ++ [newImage]
  match getImagesJSONOutput images with
  | .error p => { events := [.pull args] ++ written, state := s1, outcome := .panicked p }
  | .ok imagesOutput =>
    { events := [.pull args] ++ written ++ [.encode (.images imagesOutput)], state := s1,
      outcome := .returned }

/-! ## An in-memory runtime

A small runtime over explicit lists of containers and images, on which the
handlers are run at concrete requests. -/

/-- State of the in-memory runtime: the containers, the local image store and
the references a pull can fetch, each with its image. -/
structure MemState where
  containers : List Container
  images : List Image
  registry : List (String × Image)
  deriving DecidableEq

/-- First container whose id or name is `key`. -/
def MemState.findContainer (s : MemState) (key : String) : Option Container :=
  s.containers.find? fun c => c.ID == key || c.Name == key

/-- First local image whose id is `key` or that carries the name `key`. -/
def MemState.findImage (s : MemState) (key : String) : Option Image :=
  s.images.find? fun i => i.ID == key || i.Names.contains key

/-- The in-memory runtime.  A running container is removed only with force. -/
def memRuntime : Runtime MemState where
  GetContainers s := .ok s.containers
  LookupContainer s key :=
    match s.findContainer key with
    | some c => .ok c
    | none => .error ("no container with name or ID " ++ key ++ " found")
  RemoveContainer s c force :=
    if c.State == "running" && !force then
      (some "cannot remove a running container", s)
    else
      (none, { s with containers := s.containers.filter fun d => d.ID != c.ID })
  GetImages s := .ok s.images
  NewFromLocal s key :=
    match s.findImage key with
    | some i => .ok i
    | none => .error ("no such image " ++ key)
  RemoveImage s i force :=
    if s.containers.any (fun c => c.ImageName ∈ i.Names) && !force then
      (("", some "image is in use by a container"), s)
    else
      ((i.ID, none), { s with images := s.images.filter fun j => j.ID != i.ID })
  New s args :=
    match s.registry.lookup args.name with
    | some i => (.ok i, { s with images := s.images ++ [i] })
    | none => (.error ("unable to pull " ++ args.name), s)

/-- An image with a 64-digit id whose size is known. -/
def alpine : Image :=
  { ID := "a24bb4013296f61e89ba57005a7b3e52274d8edd3ae2077d04395f806b63d83e"
    Names := ["docker.io/library/alpine:latest"]
    Digest := "sha256:185518070891758909c9f839cf4ca393ee977ac378609f700f60a771a2dfe321"
    Created := 1590796122
    Size := .ok 5850080 }

/-- An image whose size computation fails. -/
def busybox : Image :=
  { ID := "c7c37e472d31c1060b2d2d3e2a2a0cfd3e3e1a2d6c0a4d3f1ad4f1e2f0c3b1a9"
    Names := ["docker.io/library/busybox:latest"]
    Digest := "sha256:9ae97d36d26566ff84e8893c64a6dc4fe8ca6d1144bf5b87b2b85a32def253c7"
    Created := 1591121900
    Size := .error "layer not known" }

/-- An image whose id has five characters. -/
def stub : Image :=
  { ID := "abcde", Names := ["stub"], Digest := "", Created := 0, Size := .ok 1 }

/-- A stopped container created from `alpine`. -/
def web : Container :=
  { ID := "389cb2778c16a7c3a3f0a8c1d7e4b5f6a7b8c9d0e1f2a3b4c5d6e7f8a9b0c1d2"
    Name := "web"
    ImageName := "docker.io/library/alpine:latest"
    Command := ["/bin/sh"]
    ExitCode := 0
    Exited := true
    CreatedTime := 1591000000
    StartedTime := 1591000001
    FinishedTime := 1591000050
    State := "exited"
    Labels := [("tier", "front")]
    IsInfra := false }

/-- A running container whose image is not in the local store. -/
def db : Container :=
  { ID := "7d1f9e2b4c6a8e0f1a3c5e7f9b1d3f5a7c9e1b3d5f7a9c1e3b5d7f9a1c3e5b7d"
    Name := "db"
    ImageName := "docker.io/library/postgres:12"
    Command := ["postgres"]
    ExitCode := 0
    Exited := false
    CreatedTime := 1591000100
    StartedTime := 1591000101
    FinishedTime := 0
    State := "running"
    Labels := []
    IsInfra := false }

/-- A container whose id has three characters. -/
def tiny : Container :=
  { web with ID := "abc", Name := "tiny" }

/-- A container whose id starts with a two-byte character: 17 characters,
18 bytes. -/
def cafe : Container :=
  { web with ID := "é0123456789abcdef", Name := "cafe" }

/-- An image whose id has 7 characters and 14 bytes. -/
def accent : Image :=
  { ID := "ééééééé", Names := ["accent"], Digest := "", Created := 0, Size := .ok 1 }

/-- A populated runtime state. -/
def populated : MemState :=
  { containers := [web, db], images := [alpine, busybox], registry := [("alpine", alpine)] }

/-- The empty runtime state. -/
def emptyState : MemState :=
  { containers := [], images := [], registry := [] }

/-- A request with the query `id=v`. -/
def reqId (v : String) : Request :=
  { query := [("id", v)], vars := [] }

/-- A request on the route `/image/pull/v`; the route variable `name` matches
one path segment, so `v` holds no slash. -/
def reqPull (v : String) : Request :=
  { query := [], vars := [("name", v)] }

/-! ## The views the loop bodies build -/

/-- The view the loop body of `getImagesJSONOutput` appends for an image whose
id has at least 12 bytes. -/
def imageView (img : Image) : imagesJSONParams :=
  { ID := img.ID
    ShortID := (goBytes img.ID).take 12
    Name := img.Names
    Digest := img.Digest
    Created := img.Created
    Size :=
      match img.Size with
      | .error _ => none
      | .ok n => some n }

/-- The view the loop body of `getContainersJSONOutput` appends for a
container whose id has at least 12 bytes. -/
def containerView {σ : Type} (runtime : Runtime σ) (s : σ) (ctr : Container) :
    containersJSONParams :=
  { ID := ctr.ID
    ShortID := (goBytes ctr.ID).take 12
    Names := ctr.Name
    Image := ctr.ImageName
    ImageID :=
      match runtime.NewFromLocal s ctr.ImageName with
      | .ok image => image.ID
      | .error _ => ""
    Command := ctr.Command
    ExitCode := ctr.ExitCode
    Exited := ctr.Exited
    CreatedAt := ctr.CreatedTime
    StartedAt := ctr.StartedTime
    ExitedAt := ctr.FinishedTime
    Status := ctr.State
    Labels := ctr.Labels
    IsInfra := ctr.IsInfra
    PID := 0
    Ports := []
    Size := none
    Mounts := []
    ContainerRunning := false
    Namespaces := none
    Pod := "" }

/-! ## Lemmas on the slice and the projection loops -/

theorem length_le_flatMap_utf8 (l : List Char) :
    l.length ≤ (l.flatMap String.utf8EncodeChar).length := by
  induction l with
  | nil => simp
  | cons c l ih =>
    have := c.utf8Size_pos
    simp only [List.flatMap_cons, List.length_append, String.length_utf8EncodeChar,
      List.length_cons]
    omega

/-- A string has at least as many bytes as characters. -/
theorem length_le_goLen (s : String) : s.length ≤ goLen s :=
  length_le_flatMap_utf8 s.data

theorem goSlice_twelve_ok (s : String) (h : 12 ≤ goLen s) :
    goSlice s 0 12 = .ok ((goBytes s).take 12) := by
  simp [goSlice, h]

theorem goSlice_twelve_panics (s : String) (h : goLen s < 12) :
    goSlice s 0 12 = .error (.sliceBoundsOutOfRange 12 (goLen s)) := by
  have h' : ¬ 12 ≤ goLen s := by omega
  simp [goSlice, h']

theorem imageParams_ok (img : Image) (h : 12 ≤ goLen img.ID) :
    imageParams (some img) = .ok (imageView img) := by
  simp only [imageParams, deref, bind, Except.bind, goSlice_twelve_ok _ h]
  rfl

theorem imageParams_short (img : Image) (h : goLen img.ID < 12) :
    imageParams (some img) = .error (.sliceBoundsOutOfRange 12 (goLen img.ID)) := by
  simp only [imageParams, deref, bind, Except.bind, goSlice_twelve_panics _ h]

theorem containerParams_ok {σ : Type} (rt : Runtime σ) (s : σ) (c : Container)
    (h : 12 ≤ goLen c.ID) :
    containerParams rt s (some c) = .ok (containerView rt s c) := by
  simp only [containerParams, deref, bind, Except.bind, goSlice_twelve_ok _ h]
  rfl

theorem containerParams_short {σ : Type} (rt : Runtime σ) (s : σ) (c : Container)
    (h : goLen c.ID < 12) :
    containerParams rt s (some c) = .error (.sliceBoundsOutOfRange 12 (goLen c.ID)) := by
  simp only [containerParams, deref, bind, Except.bind, goSlice_twelve_panics _ h]

theorem imagesLoop_ok (imgs : List Image) (h : ∀ i ∈ imgs, 12 ≤ goLen i.ID) :
    ∀ out, getImagesJSONOutputLoop (imgs.map some) out = .ok (out ++ imgs.map imageView) := by
  induction imgs with
  | nil => intro out; simp [getImagesJSONOutputLoop]
  | cons i rest ih =>
    intro out
    have hi : 12 ≤ goLen i.ID := h i (List.mem_cons_self _ _)
    have hrest : ∀ j ∈ rest, 12 ≤ goLen j.ID := fun j hj => h j (List.mem_cons_of_mem _ hj)
    simp [getImagesJSONOutputLoop, imageParams_ok i hi, ih hrest]

theorem imagesLoop_short (imgs : List Image) (h : ∃ i ∈ imgs, goLen i.ID < 12) :
    ∀ out, ∃ n, n < 12 ∧
      getImagesJSONOutputLoop (imgs.map some) out = .error (.sliceBoundsOutOfRange 12 n) := by
  induction imgs with
  | nil => obtain ⟨i, hi, _⟩ := h; cases hi
  | cons i rest ih =>
    intro out
    by_cases hi : goLen i.ID < 12
    · exact ⟨goLen i.ID, hi, by simp [getImagesJSONOutputLoop, imageParams_short i hi]⟩
    · have hrest : ∃ j ∈ rest, goLen j.ID < 12 := by
        obtain ⟨j, hj, hlt⟩ := h
        rcases List.mem_cons.mp hj with rfl | hj'
        · exact absurd hlt hi
        · exact ⟨j, hj', hlt⟩
      obtain ⟨n, hn, hloop⟩ := ih hrest (out ++ [imageView i])
      exact ⟨n, hn, by
        simp [getImagesJSONOutputLoop, imageParams_ok i (by omega), hloop]⟩

theorem containersLoop_ok {σ : Type} (rt : Runtime σ) (s : σ) (cs : List Container)
    (h : ∀ c ∈ cs, 12 ≤ goLen c.ID) :
    ∀ out, getContainersJSONOutputLoop rt s (cs.map some) out =
      .ok (out ++ cs.map (containerView rt s)) := by
  induction cs with
  | nil => intro out; simp [getContainersJSONOutputLoop]
  | cons c rest ih =>
    intro out
    have hc : 12 ≤ goLen c.ID := h c (List.mem_cons_self _ _)
    have hrest : ∀ d ∈ rest, 12 ≤ goLen d.ID := fun d hd => h d (List.mem_cons_of_mem _ hd)
    simp [getContainersJSONOutputLoop, containerParams_ok rt s c hc, ih hrest]

theorem containersLoop_short {σ : Type} (rt : Runtime σ) (s : σ) (cs : List Container)
    (h : ∃ c ∈ cs, goLen c.ID < 12) :
    ∀ out, ∃ n, n < 12 ∧
      getContainersJSONOutputLoop rt s (cs.map some) out =
        .error (.sliceBoundsOutOfRange 12 n) := by
  induction cs with
  | nil => obtain ⟨c, hc, _⟩ := h; cases hc
  | cons c rest ih =>
    intro out
    by_cases hc : goLen c.ID < 12
    · exact ⟨goLen c.ID, hc, by
        simp [getContainersJSONOutputLoop, containerParams_short rt s c hc]⟩
    · have hrest : ∃ d ∈ rest, goLen d.ID < 12 := by
        obtain ⟨d, hd, hlt⟩ := h
        rcases List.mem_cons.mp hd with rfl | hd'
        · exact absurd hlt hc
        · exact ⟨d, hd', hlt⟩
      obtain ⟨n, hn, hloop⟩ := ih hrest (out ++ [containerView rt s c])
      exact ⟨n, hn, by
        simp [getContainersJSONOutputLoop, containerParams_ok rt s c (by omega), hloop]⟩

theorem getImagesJSONOutput_ok (imgs : List Image) (h : ∀ i ∈ imgs, 12 ≤ goLen i.ID) :
    getImagesJSONOutput (imgs.map some) = .ok (imgs.map imageView) := by
  simpa [getImagesJSONOutput] using imagesLoop_ok imgs h []

theorem getContainersJSONOutput_ok {σ : Type} (rt : Runtime σ) (s : σ) (cs : List Container)
    (h : ∀ c ∈ cs, 12 ≤ goLen c.ID) :
    getContainersJSONOutput rt s (cs.map some) = .ok (cs.map (containerView rt s)) := by
  simpa [getContainersJSONOutput] using containersLoop_ok rt s cs h []

/-! ## Handlers on successful lookups and enumerations -/

/-- C3: when the lookup of the query value `id` fails with error `err`,
`GetContainer` (resp. `GetImage`) sets the header, encodes the single string
`unable to get container, err` (resp. `unable to get image, err`) and returns:
the body holds that one string and no array, the handler does not panic, and
the runtime state is untouched. -/
theorem Get_lookup_failure_single_string {σ : Type} (rt : Runtime σ) (s : σ) (r : Request) :
    (∀ err, rt.LookupContainer s (r.queryGet "id") = .error err →
      GetContainer rt s r =
        { events := [contentTypeJSON, .encode (.str ("unable to get container, " ++ err))],
          state := s, outcome := .returned } ∧
      (GetContainer rt s r).body = [.str ("unable to get container, " ++ err)]) ∧
    (∀ err, rt.NewFromLocal s (r.queryGet "id") = .error err →
      GetImage rt s r =
        { events := [contentTypeJSON, .encode (.str ("unable to get image, " ++ err))],
          state := s, outcome := .returned } ∧
      (GetImage rt s r).body = [.str ("unable to get image, " ++ err)]) := by
  constructor
  · intro err h
    simp [GetContainer, h, fmtErr, Result.body, contentTypeJSON]
  · intro err h
    simp [GetImage, h, fmtErr, Result.body, contentTypeJSON]

/-- Instance of C3: the id `nope` names neither a container nor an image. -/
theorem Get_lookup_failure_single_string_witness :
    (memRuntime.LookupContainer populated ((reqId "nope").queryGet "id") =
        .error "no container with name or ID nope found" ∧
      (GetContainer memRuntime populated (reqId "nope")).body =
        [.str "unable to get container, no container with name or ID nope found"]) ∧
    (memRuntime.NewFromLocal populated ((reqId "nope").queryGet "id") =
        .error "no such image nope" ∧
      (GetImage memRuntime populated (reqId "nope")).body =
        [.str "unable to get image, no such image nope"]) :=
  ⟨⟨by rfl,
      ((Get_lookup_failure_single_string memRuntime populated (reqId "nope")).1
        "no container with name or ID nope found" (by rfl)).2⟩,
    ⟨by rfl,
      ((Get_lookup_failure_single_string memRuntime populated (reqId "nope")).2
        "no such image nope" (by rfl)).2⟩⟩

/-! ## Deletion -/

/-- C4: when the lookup of the query value `id` fails, `DeleteContainer`
(resp. `DeleteImage`) sets the header, encodes one error string and returns;
no removal call is among its effects and the runtime state after the request
is the state before it. -/
theorem Delete_lookup_failure_no_removal {σ : Type} (rt : Runtime σ) (s : σ) (r : Request) :
    (∀ err, rt.LookupContainer s (r.queryGet "id") = .error err →
      (DeleteContainer rt s r).events =
        [contentTypeJSON, .encode (.str ("unable to get container, " ++ err))] ∧
      (∀ c force, Event.removeContainer c force ∉ (DeleteContainer rt s r).events) ∧
      (DeleteContainer rt s r).state = s ∧
      (DeleteContainer rt s r).outcome = .returned) ∧
    (∀ err, rt.NewFromLocal s (r.queryGet "id") = .error err →
      (DeleteImage rt s r).events =
        [contentTypeJSON, .encode (.str ("unable to find image, " ++ err))] ∧
      (∀ img force, Event.removeImage img force ∉ (DeleteImage rt s r).events) ∧
      (DeleteImage rt s r).state = s ∧
      (DeleteImage rt s r).outcome = .returned) := by
  constructor
  · intro err h
    simp [DeleteContainer, h, fmtErr, contentTypeJSON]
  · intro err h
    simp [DeleteImage, h, fmtErr, contentTypeJSON]

/-- Instance of C4: deleting the unknown id `nope` leaves the populated state
as it was. -/
theorem Delete_lookup_failure_no_removal_witness :
    (memRuntime.LookupContainer populated ((reqId "nope").queryGet "id") =
        .error "no container with name or ID nope found" ∧
      (DeleteContainer memRuntime populated (reqId "nope")).state = populated) ∧
    (memRuntime.NewFromLocal populated ((reqId "nope").queryGet "id") =
        .error "no such image nope" ∧
      (DeleteImage memRuntime populated (reqId "nope")).state = populated) :=
  ⟨⟨by rfl,
      ((Delete_lookup_failure_no_removal memRuntime populated (reqId "nope")).1
        "no container with name or ID nope found" (by rfl)).2.2.1⟩,
    ⟨by rfl,
      ((Delete_lookup_failure_no_removal memRuntime populated (reqId "nope")).2
        "no such image nope" (by rfl)).2.2.1⟩⟩

/-- C9: after a successful lookup of container `c`, `DeleteContainer` calls
the removal exactly once, with `force = false`.  When the removal fails with
`cause` the one body value is the string
`unable to delete container <c.ID>, error: <cause>`; when it succeeds the one
body value is the string `Deleted Container ID: <c.ID>`. -/
theorem DeleteContainer_after_lookup {σ : Type} (rt : Runtime σ) (s : σ) (r : Request)
    (c : Container) (hlook : rt.LookupContainer s (r.queryGet "id") = .ok c) :
    (∀ cause s1, rt.RemoveContainer s c false = (some cause, s1) →
      DeleteContainer rt s r =
        { events := [contentTypeJSON, .removeContainer c false,
            .encode (.str ("unable to delete container " ++ c.ID ++ ", error: " ++ cause))],
          state := s1, outcome := .returned }) ∧
    (∀ s1, rt.RemoveContainer s c false = (none, s1) →
      DeleteContainer rt s r =
        { events := [contentTypeJSON, .removeContainer c false,
            .encode (.str ("Deleted Container ID: " ++ c.ID))],
          state := s1, outcome := .returned }) := by
  constructor
  · intro cause s1 h
    simp [DeleteContainer, hlook, h, fmtErr]
  · intro s1 h
    simp [DeleteContainer, hlook, h]

/-- Instance of C9: the running container `db` is not removed without force,
the stopped container `web` is. -/
theorem DeleteContainer_after_lookup_witness :
    (memRuntime.LookupContainer populated ((reqId "db").queryGet "id") = .ok db ∧
      DeleteContainer memRuntime populated (reqId "db") =
        { events := [contentTypeJSON, .removeContainer db false,
            .encode (.str ("unable to delete container " ++ db.ID ++
              ", error: cannot remove a running container"))],
          state := populated, outcome := .returned }) ∧
    (memRuntime.LookupContainer populated ((reqId "web").queryGet "id") = .ok web ∧
      DeleteContainer memRuntime populated (reqId "web") =
        { events := [contentTypeJSON, .removeContainer web false,
            .encode (.str ("Deleted Container ID: " ++ web.ID))],
          state := { populated with containers := [db] }, outcome := .returned }) :=
  ⟨⟨by rfl,
      (DeleteContainer_after_lookup memRuntime populated (reqId "db") db (by rfl)).1
        "cannot remove a running container" populated (by rfl)⟩,
    ⟨by rfl,
      (DeleteContainer_after_lookup memRuntime populated (reqId "web") web (by rfl)).2
        { populated with containers := [db] } (by rfl)⟩⟩

/-! ## Enumerations -/

/-- C5: when the enumeration succeeds with zero entities, `GetContainers`
(resp. `GetImages`) returns after writing exactly one body value, the JSON
string `no containers found, <nil>` (resp. `no images found, <nil>`); the
body holds no array. -/
theorem List_empty_single_string {σ : Type} (rt : Runtime σ) (s : σ) (r : Request) :
    (rt.GetContainers s = .ok [] →
      (GetContainers rt s r).body = [.str "no containers found, <nil>"] ∧
      (GetContainers rt s r).outcome = .returned) ∧
    (rt.GetImages s = .ok [] →
      (GetImages rt s r).body = [.str "no images found, <nil>"] ∧
      (GetImages rt s r).outcome = .returned) := by
  constructor
  · intro h
    refine ⟨?_, ?_⟩
    · simp [GetContainers, h, fmtErr, Result.body, contentTypeJSON]
    · simp [GetContainers, h]
  · intro h
    refine ⟨?_, ?_⟩
    · simp [GetImages, h, fmtErr, Result.body, contentTypeJSON]
    · simp [GetImages, h]

/-- Instance of C5 on the empty in-memory runtime. -/
theorem List_empty_single_string_witness :
    (memRuntime.GetContainers emptyState = .ok [] ∧
      (GetContainers memRuntime emptyState (reqId "")).body =
        [.str "no containers found, <nil>"]) ∧
    (memRuntime.GetImages emptyState = .ok [] ∧
      (GetImages memRuntime emptyState (reqId "")).body = [.str "no images found, <nil>"]) :=
  ⟨⟨by rfl, ((List_empty_single_string memRuntime emptyState (reqId "")).1 (by rfl)).1⟩,
    ⟨by rfl, ((List_empty_single_string memRuntime emptyState (reqId "")).2 (by rfl)).1⟩⟩

/-- C7: on lists whose ids have at least 12 characters the projections
succeed with one view per item, whatever the secondary calls return.  An image
whose size computation fails is projected with `Size` nil and the other fields
filled from the image as when the size is known; a container whose image
lookup fails is projected with the empty `ImageID`, and with the looked-up
image's id when the lookup succeeds. -/
theorem projection_best_effort_fields {σ : Type} (rt : Runtime σ) (s : σ) :
    (∀ imgs : List Image, (∀ i ∈ imgs, 12 ≤ i.ID.length) →
      ∃ vs : List imagesJSONParams,
        getImagesJSONOutput (imgs.map some) = .ok vs ∧ vs.length = imgs.length ∧
        (∀ (k : Nat) (img : Image) (e : Err), imgs[k]? = some img → img.Size = .error e →
          vs[k]? = some
            { ID := img.ID, ShortID := (goBytes img.ID).take 12, Name := img.Names,
              Digest := img.Digest, Created := img.Created, Size := none }) ∧
        (∀ (k : Nat) (img : Image) (n : Nat), imgs[k]? = some img → img.Size = .ok n →
          vs[k]? = some
            { ID := img.ID, ShortID := (goBytes img.ID).take 12, Name := img.Names,
              Digest := img.Digest, Created := img.Created, Size := some n })) ∧
    (∀ cs : List Container, (∀ c ∈ cs, 12 ≤ c.ID.length) →
      ∃ vs : List containersJSONParams,
        getContainersJSONOutput rt s (cs.map some) = .ok vs ∧ vs.length = cs.length ∧
        ∀ (k : Nat) (c : Container), cs[k]? = some c →
          ∃ v, vs[k]? = some v ∧ v.ID = c.ID ∧
            (∀ e, rt.NewFromLocal s c.ImageName = .error e → v.ImageID = "") ∧
            (∀ img, rt.NewFromLocal s c.ImageName = .ok img → v.ImageID = img.ID)) := by
  constructor
  · intro imgs hlen
    have hbytes : ∀ i ∈ imgs, 12 ≤ goLen i.ID :=
      fun i hi => Nat.le_trans (hlen i hi) (length_le_goLen i.ID)
    refine ⟨imgs.map imageView, getImagesJSONOutput_ok imgs hbytes, by simp, ?_, ?_⟩
    · intro k img e hk hsz
      simp [hk, imageView, hsz]
    · intro k img n hk hsz
      simp [hk, imageView, hsz]
  · intro cs hlen
    have hbytes : ∀ c ∈ cs, 12 ≤ goLen c.ID :=
      fun c hc => Nat.le_trans (hlen c hc) (length_le_goLen c.ID)
    refine ⟨cs.map (containerView rt s), getContainersJSONOutput_ok rt s cs hbytes, by simp,
      ?_⟩
    intro k c hk
    refine ⟨containerView rt s c, by simp [hk], by simp [containerView], ?_, ?_⟩
    · intro e he
      simp [containerView, he]
    · intro img himg
      simp [containerView, himg]

/-- Instance of C7: `busybox` has no computable size and keeps its place with
`Size` nil; the image of `db` is not in the local store and `db` keeps its
place with the empty `ImageID`, while `web` gets the id of `alpine`. -/
theorem projection_best_effort_fields_witness :
    (∃ vs : List imagesJSONParams,
      getImagesJSONOutput ([alpine, busybox].map some) = .ok vs ∧ vs.length = 2 ∧
      vs[1]? = some
        { ID := busybox.ID, ShortID := (goBytes busybox.ID).take 12, Name := busybox.Names,
          Digest := busybox.Digest, Created := busybox.Created, Size := none }) ∧
    (∃ vs : List containersJSONParams,
      getContainersJSONOutput memRuntime populated ([web, db].map some) = .ok vs ∧
      vs.length = 2 ∧
      (∃ v, vs[1]? = some v ∧ v.ID = db.ID ∧ v.ImageID = "") ∧
      (∃ v, vs[0]? = some v ∧ v.ID = web.ID ∧ v.ImageID = alpine.ID)) := by
  constructor
  · obtain ⟨vs, hok, hlen, hfail, _⟩ :=
      (projection_best_effort_fields memRuntime populated).1 [alpine, busybox] (by decide)
    exact ⟨vs, hok, hlen, hfail 1 busybox "layer not known" (by rfl) (by rfl)⟩
  · obtain ⟨vs, hok, hlen, hview⟩ :=
      (projection_best_effort_fields memRuntime populated).2 [web, db] (by decide)
    refine ⟨vs, hok, hlen, ?_, ?_⟩
    · obtain ⟨v, hv, hid, hfail, _⟩ := hview 1 db (by rfl)
      exact ⟨v, hv, hid, hfail "no such image docker.io/library/postgres:12" (by rfl)⟩
    · obtain ⟨v, hv, hid, _, hfound⟩ := hview 0 web (by rfl)
      exact ⟨v, hv, hid, hfound alpine (by rfl)⟩

/-- C10: if every entity of the input list has an id of at least 12 bytes,
`getContainersJSONOutput` and `getImagesJSONOutput` do not panic and return one
view per item; if some entity of the list has an id shorter than 12 bytes, the
projection ends in the panic `slice bounds out of range [:12]` and returns no
views, whatever well-formed items precede the short one. -/
theorem short_id_slice_safety {σ : Type} (rt : Runtime σ) (s : σ) :
    (∀ cs : List Container, (∀ c ∈ cs, 12 ≤ goLen c.ID) →
      ∃ vs, getContainersJSONOutput rt s (cs.map some) = .ok vs ∧ vs.length = cs.length) ∧
    (∀ imgs : List Image, (∀ i ∈ imgs, 12 ≤ goLen i.ID) →
      ∃ vs, getImagesJSONOutput (imgs.map some) = .ok vs ∧ vs.length = imgs.length) ∧
    (∀ cs : List Container, (∃ c ∈ cs, goLen c.ID < 12) →
      ∃ n, n < 12 ∧
        getContainersJSONOutput rt s (cs.map some) = .error (.sliceBoundsOutOfRange 12 n)) ∧
    (∀ imgs : List Image, (∃ i ∈ imgs, goLen i.ID < 12) →
      ∃ n, n < 12 ∧
        getImagesJSONOutput (imgs.map some) = .error (.sliceBoundsOutOfRange 12 n)) := by
  refine ⟨?_, ?_, ?_, ?_⟩
  · intro cs h
    exact ⟨cs.map (containerView rt s), getContainersJSONOutput_ok rt s cs h, by simp⟩
  · intro imgs h
    exact ⟨imgs.map imageView, getImagesJSONOutput_ok imgs h, by simp⟩
  · intro cs h
    exact containersLoop_short rt s cs h []
  · intro imgs h
    exact imagesLoop_short imgs h []

/-- Instance of C10: the lists `[web, cafe, db]` and `[alpine, accent]` are
projected (the id of `accent` has 7 characters and 14 bytes); `[web, tiny, db]`
and `[alpine, stub]` hold an id of 3 resp. 5 bytes after a well-formed first
item and end in the panic. -/
theorem short_id_slice_safety_witness :
    (∃ vs, getContainersJSONOutput memRuntime populated ([web, cafe, db].map some) = .ok vs ∧
      vs.length = [web, cafe, db].length) ∧
    (goLen accent.ID = 14 ∧
      ∃ vs, getImagesJSONOutput ([alpine, accent].map some) = .ok vs ∧
        vs.length = [alpine, accent].length) ∧
    (∃ n, n < 12 ∧
      getContainersJSONOutput memRuntime populated ([web, tiny, db].map some) =
        .error (.sliceBoundsOutOfRange 12 n)) ∧
    (∃ n, n < 12 ∧
      getImagesJSONOutput ([alpine, stub].map some) = .error (.sliceBoundsOutOfRange 12 n)) :=
  ⟨(short_id_slice_safety memRuntime populated).1 [web, cafe, db] (by decide),
    ⟨by decide, (short_id_slice_safety memRuntime populated).2.1 [alpine, accent] (by decide)⟩,
    (short_id_slice_safety memRuntime populated).2.2.1 [web, tiny, db]
      ⟨tiny, by decide, by decide⟩,
    (short_id_slice_safety memRuntime populated).2.2.2 [alpine, stub]
      ⟨stub, by decide, by decide⟩⟩

/-! ## PullImage and the response header -/

/-- After a failed pull `PullImage` encodes the error string and goes on to
the projection of the nil image, where the handler panics. -/
theorem PullImage_failed_pull_reaches_projection {σ : Type} (rt : Runtime σ) (s s1 : σ)
    (r : Request) (err : Err) (h : rt.New s (pullArgs (r.var "name")) = (.error err, s1)) :
    PullImage rt s r =
      { events := [.pull (pullArgs (r.var "name")),
          .encode (.str ("image not found, " ++ err))],
        state := s1, outcome := .panicked .nilDereference } := by
  simp [PullImage, h, getImagesJSONOutput, getImagesJSONOutputLoop, imageParams, deref,
    fmtErr, bind, Except.bind]

/-- No effect of `PullImage` is a header set. -/
theorem PullImage_sets_no_header {σ : Type} (rt : Runtime σ) (s : σ) (r : Request)
    (k v : String) : Event.setHeader k v ∉ (PullImage rt s r).events := by
  cases hnew : rt.New s (pullArgs (r.var "name")) with
  | mk res s1 =>
    cases res with
    | error err => simp [PullImage_failed_pull_reaches_projection rt s s1 r err hnew]
    | ok img =>
      simp only [PullImage, hnew]
      split <;> simp

/-- The other six handlers set the content type as their first effect. -/
theorem handlers_set_content_type_first {σ : Type} (rt : Runtime σ) (s : σ) (r : Request) :
    (GetContainers rt s r).events.head? = some contentTypeJSON ∧
    (GetContainer rt s r).events.head? = some contentTypeJSON ∧
    (DeleteContainer rt s r).events.head? = some contentTypeJSON ∧
    (GetImages rt s r).events.head? = some contentTypeJSON ∧
    (GetImage rt s r).events.head? = some contentTypeJSON ∧
    (DeleteImage rt s r).events.head? = some contentTypeJSON := by
  refine ⟨?_, ?_, ?_, ?_, ?_, ?_⟩
  · simp only [GetContainers]
    split
    · rfl
    · split
      · rfl
      · split <;> rfl
  · simp only [GetContainer]
    split
    · rfl
    · split <;> rfl
  · simp only [DeleteContainer]
    split
    · rfl
    · split <;> rfl
  · simp only [GetImages]
    split
    · rfl
    · split
      · rfl
      · split <;> rfl
  · simp only [GetImage]
    split
    · rfl
    · split <;> rfl
  · simp only [DeleteImage]
    split
    · rfl
    · split <;> rfl

/-- C1: on the in-memory runtime the reference `nope` cannot be pulled.
`PullImage` encodes the error string and does not return there: it goes on to
project the nil image and ends in a nil-dereference panic. -/
theorem PullImage_failed_pull_at_nope :
    memRuntime.New populated (pullArgs "nope") = (.error "unable to pull nope", populated) ∧
    PullImage memRuntime populated (reqPull "nope") =
      { events := [.pull (pullArgs "nope"),
          .encode (.str "image not found, unable to pull nope")],
        state := populated, outcome := .panicked .nilDereference } ∧
    (PullImage memRuntime populated (reqPull "nope")).outcome ≠ .returned := by
  refine ⟨by rfl, by rfl, by decide⟩

/-- C8: the request `POST /image/pull/alpine` is routed to `PullImage` (the
reference is one path segment).  On the in-memory runtime the pull succeeds;
the handler performs the pull and encodes the one-view array, and no header
set, of `Content-Type` or any other key, is among its effects. -/
theorem PullImage_sets_no_content_type :
    '/' ∉ "alpine".data ∧
    (PullImage memRuntime populated (reqPull "alpine")).events =
      [.pull (pullArgs "alpine"),
        .encode (.images
          [{ ID := alpine.ID, ShortID := goBytes "a24bb4013296", Name := alpine.Names,
             Digest := alpine.Digest, Created := alpine.Created, Size := some 5850080 }])] ∧
    (PullImage memRuntime populated (reqPull "alpine")).outcome = .returned ∧
    contentTypeJSON ∉ (PullImage memRuntime populated (reqPull "alpine")).events ∧
    ∀ k v : String,
      Event.setHeader k v ∉ (PullImage memRuntime populated (reqPull "alpine")).events := by
  refine ⟨by decide, by decide, by decide, ?_, ?_⟩
  · exact PullImage_sets_no_header memRuntime populated _ _ _
  · exact PullImage_sets_no_header memRuntime populated _

end Restapi
